import Mathlib

/-!
# Verification of the galaxy-sim procedural property generator

Shallow embedding, over exact rational arithmetic, of the noise-sampling and
body-property-generation core of the repository:

* `perlinNoise` / `generatePlanetProperties` — host-side functions from
  `src/main.js` (identical text in the later variant files), parameterized by
  the underlying coherent-noise primitive `noise3D` (an external library
  instance, modelled as an arbitrary function `ℚ → ℚ → ℚ → ℚ`).
* `glslPerlinNoise` — the 4-octave wrapper embedded in the planet/moon
  fragment shaders, parameterized by its `snoise` primitive.
* `snoise70` — the shader noise primitive embedded in `src/main.js`
  (the `return 70.0 * (...)` variant).
* `snoise42` — the shader noise primitive embedded in the later variant files
  (the `return 42.0 * dot(...)` variant).

All numeric literals (`0.1`, `0.5`, `0.8`, …) denote the exact rationals the
decimal literals denote; the development is over ℚ, so the algebraic claims
are settled exactly, as in the source's idealized (real-arithmetic) reading.
-/

namespace GalaxySim

/-- A 3-component vector of rationals (GLSL `vec3`, Babylon `Color3`/`Vector3`
coordinates). -/
structure Vec3 where
  x : ℚ
  y : ℚ
  z : ℚ
  deriving DecidableEq

/-- A 4-component vector of rationals (GLSL `vec4`). -/
structure Vec4 where
  x : ℚ
  y : ℚ
  z : ℚ
  w : ℚ
  deriving DecidableEq

/-- GLSL `dot` on `vec3`. -/
def dot3 (a b : Vec3) : ℚ := a.x * b.x + a.y * b.y + a.z * b.z

/-- GLSL `dot` on `vec4`. -/
def dot4 (a b : Vec4) : ℚ := a.x * b.x + a.y * b.y + a.z * b.z + a.w * b.w

/-- Componentwise addition (GLSL `+` on `vec3`). -/
def vadd (a b : Vec3) : Vec3 := ⟨a.x + b.x, a.y + b.y, a.z + b.z⟩

/-- Componentwise subtraction (GLSL `-` on `vec3`). -/
def vsub (a b : Vec3) : Vec3 := ⟨a.x - b.x, a.y - b.y, a.z - b.z⟩

/-- Scalar broadcast (GLSL `vec3(s)`). -/
def vsplat (q : ℚ) : Vec3 := ⟨q, q, q⟩

/-- Vector-times-scalar (GLSL `v * s`, componentwise). -/
def vscale (v : Vec3) (q : ℚ) : Vec3 := ⟨v.x * q, v.y * q, v.z * q⟩

/-- Componentwise `min` (GLSL `min` on `vec3`). -/
def vmin (a b : Vec3) : Vec3 := ⟨min a.x b.x, min a.y b.y, min a.z b.z⟩

/-- Componentwise `max` (GLSL `max` on `vec3`). -/
def vmax (a b : Vec3) : Vec3 := ⟨max a.x b.x, max a.y b.y, max a.z b.z⟩

/-- GLSL scalar `step(edge, x)`: `0.0` if `x < edge`, else `1.0`. -/
def gstep (edge xv : ℚ) : ℚ := if xv < edge then 0 else 1

/-- Componentwise `step` (GLSL `step` on `vec3`). -/
def vstep (edge v : Vec3) : Vec3 :=
  ⟨gstep edge.x v.x, gstep edge.y v.y, gstep edge.z v.z⟩

/-- Componentwise `floor` (GLSL `floor` on `vec3`), exact on ℚ. -/
def floor3 (v : Vec3) : Vec3 := ⟨(⌊v.x⌋ : ℤ), (⌊v.y⌋ : ℤ), (⌊v.z⌋ : ℤ)⟩

/-- Componentwise subtraction on `vec4`. -/
def vsub4 (a b : Vec4) : Vec4 := ⟨a.x - b.x, a.y - b.y, a.z - b.z, a.w - b.w⟩

/-- Componentwise `max` on `vec4`. -/
def vmax4 (a b : Vec4) : Vec4 := ⟨max a.x b.x, max a.y b.y, max a.z b.z, max a.w b.w⟩

/-- Componentwise multiplication on `vec4` (GLSL `t * t`). -/
def vmul4 (a b : Vec4) : Vec4 := ⟨a.x * b.x, a.y * b.y, a.z * b.z, a.w * b.w⟩

/-- Scalar broadcast on `vec4` (GLSL `vec4(s)`). -/
def vsplat4 (q : ℚ) : Vec4 := ⟨q, q, q, q⟩

/-- GLSL `mod289` on a scalar: `x - floor(x * (1.0 / 289.0)) * 289.0`. -/
def mod289 (q : ℚ) : ℚ := q - (⌊q * (1 / 289)⌋ : ℤ) * 289

/-- GLSL `mod289_vec3`, componentwise. -/
def mod289v (v : Vec3) : Vec3 := ⟨mod289 v.x, mod289 v.y, mod289 v.z⟩

/-- Shader helper `permute(x) = mod289_vec3(vec3(((x*34.0)+1.0)*x)).x`
from `src/main.js`. -/
def permute (q : ℚ) : ℚ := mod289 ((q * 34 + 1) * q)

/-! ## The octave-accumulation loop

The body of `perlinNoise`'s `for (let i = 0; i < 4; i++)` loop, over the
state `(total, frequency, amplitude, maxVal)` initialized to `(0, 1, 1, 0)`. -/

/-- The mutable state of the octave loop in `perlinNoise`. -/
structure OctState where
  total : ℚ
  frequency : ℚ
  amplitude : ℚ
  maxVal : ℚ
  deriving DecidableEq

/-- A counted `for` loop: `octaveLoop step n s` applies the loop body `step`
`n` times to the state `s`. -/
def octaveLoop (step : OctState → OctState) : ℕ → OctState → OctState
  | 0, s => s
  | n + 1, s => octaveLoop step n (step s)

/-- One iteration of the host-side octave loop (`src/main.js` lines 95–100):
`total += noise3D(scaledX*frequency, scaledY*frequency, scaledZ*frequency) * amplitude;
maxVal += amplitude; amplitude *= 0.5; frequency *= 2;`. -/
def octaveStep (noise3D : ℚ → ℚ → ℚ → ℚ) (sx sy sz : ℚ) (s : OctState) : OctState :=
  { total := s.total +
      noise3D (sx * s.frequency) (sy * s.frequency) (sz * s.frequency) * s.amplitude
    maxVal := s.maxVal + s.amplitude
    amplitude := s.amplitude * 0.5
    frequency := s.frequency * 2 }

/-- The part of `perlinNoise` after the coordinate scaling: run the 4-octave
loop from `(total, frequency, amplitude, maxVal) = (0, 1, 1, 0)` and return
`(total / maxVal + 1) / 2`. -/
def perlinAccum (noise3D : ℚ → ℚ → ℚ → ℚ) (sx sy sz : ℚ) : ℚ :=
  let s := octaveLoop (octaveStep noise3D sx sy sz) 4 ⟨0, 1, 1, 0⟩
  (s.total / s.maxVal + 1) / 2

/-- Host-side `perlinNoise(x, y, z, seed)` from `src/main.js` lines 85–102,
parameterized by the noise primitive `noise3D`. -/
def perlinNoise (noise3D : ℚ → ℚ → ℚ → ℚ) (x y z seed : ℚ) : ℚ :=
  let scaledX := x * 0.1 + seed
  let scaledY := y * 0.1 + seed
  let scaledZ := z * 0.1 + seed
  perlinAccum noise3D scaledX scaledY scaledZ

/-! ## Planet property generation -/

/-- Babylon `Color3`: an RGB triple. -/
structure Color3 where
  r : ℚ
  g : ℚ
  b : ℚ
  deriving DecidableEq

/-- The record returned by `generatePlanetProperties` (`src/main.js` lines
126–135), with the source's field names. -/
structure PlanetProperties where
  baseColor : Color3
  reflectance : ℚ
  emission : ℚ
  atmosphere : ℚ
  atmosphereColor : Color3
  seaColor : Color3
  landPct : ℚ
  seed : ℚ
  deriving DecidableEq

/-- `generatePlanetProperties(seed)` from `src/main.js` lines 105–136,
parameterized by the noise primitive. -/
def generatePlanetProperties (noise3D : ℚ → ℚ → ℚ → ℚ) (seed : ℚ) : PlanetProperties :=
  let baseColor : Color3 :=
    ⟨perlinNoise noise3D seed 10 20 seed,
     perlinNoise noise3D seed 30 40 seed,
     perlinNoise noise3D seed 50 60 seed⟩
  let reflectance := perlinNoise noise3D seed 70 80 seed * 0.8
  let emission := perlinNoise noise3D seed 90 100 seed * 0.2
  let atmosphere := perlinNoise noise3D seed 110 120 seed * 0.5
  let atmosphereColor : Color3 :=
    ⟨perlinNoise noise3D seed 130 140 seed,
     perlinNoise noise3D seed 150 160 seed,
     perlinNoise noise3D seed 170 180 seed⟩
  let seaColor : Color3 :=
    ⟨perlinNoise noise3D seed 190 200 seed,
     perlinNoise noise3D seed 210 220 seed,
     perlinNoise noise3D seed 230 240 seed⟩
  let landPct := perlinNoise noise3D seed 250 260 seed * 0.8
  { baseColor := baseColor
    reflectance := reflectance
    emission := emission
    atmosphere := atmosphere
    atmosphereColor := atmosphereColor
    seaColor := seaColor
    landPct := landPct
    seed := seed }

/-- The noise primitive that is constantly `0`; it satisfies the `[-1, 1]`
range contract and is used to instantiate hypotheses at concrete inputs. -/
def zeroNoise : ℚ → ℚ → ℚ → ℚ := fun _ _ _ => 0

/-! ## The shader-embedded noise functions

The fragment shaders embed their own `snoise` primitive and their own copy of
the 4-octave `perlinNoise` wrapper. `src/main.js` (lines 182–242 of the
shader source) uses a `return 70.0 * (...)` primitive; the later variant
files use a `return 42.0 * dot(...)` primitive. The wrapper text differs
only in writing the scaled coordinate as three scalars
(`vec3(scaledX*frequency, ...)`) versus one vector (`scaledP * frequency`);
both denote the same componentwise arithmetic, embedded once here. -/

/-- One iteration of the shader-side octave loop:
`total += snoise(scaledP * frequency) * amplitude; maxVal += amplitude;
amplitude *= 0.5; frequency *= 2.0;`. -/
def glslOctaveStep (snoise : Vec3 → ℚ) (scaledP : Vec3) (s : OctState) : OctState :=
  { total := s.total + snoise (vscale scaledP s.frequency) * s.amplitude
    maxVal := s.maxVal + s.amplitude
    amplitude := s.amplitude * 0.5
    frequency := s.frequency * 2 }

/-- Shader-side `perlinNoise(vec3 p, float seed)` (both the `src/main.js`
shader copy, lines 225–242, and the later variants' copy), parameterized by
the shader's `snoise` primitive. -/
def glslPerlinNoise (snoise : Vec3 → ℚ) (p : Vec3) (seed : ℚ) : ℚ :=
  let scaledP : Vec3 := ⟨p.x * 0.1 + seed, p.y * 0.1 + seed, p.z * 0.1 + seed⟩
  let s := octaveLoop (glslOctaveStep snoise scaledP) 4 ⟨0, 1, 1, 0⟩
  (s.total / s.maxVal + 1) / 2

/-- The `snoise` primitive embedded in the later variants' planet and moon
fragment shaders (the `return 42.0 * dot(...)` version). Intermediates the
GLSL source computes but never uses (`ns`, `j`, `x_`, `y_`, `z_`, the
`mod289` of `i`) are kept as unused bindings for fidelity. -/
def snoise42 (v : Vec3) : ℚ :=
  let Cx : ℚ := 1 / 6
  let Cy : ℚ := 1 / 3
  let i := floor3 (vadd v (vsplat (dot3 v (vsplat Cy))))
  let x0 := vadd (vsub v i) (vsplat (dot3 i (vsplat Cx)))
  let g := vstep ⟨x0.y, x0.z, x0.x⟩ x0
  let l := vsub (vsplat 1) g
  let i1 := vmin g ⟨l.z, l.x, l.y⟩
  let i2 := vmax g ⟨l.z, l.x, l.y⟩
  let x1 := vadd (vsub x0 i1) (vsplat Cx)
  let x2 := vadd (vsub x0 i2) (vsplat (2 * Cx))
  let x3 := vadd (vsub x0 (vsplat 1)) (vsplat (3 * Cx))
  let im := mod289v i
  let n_ : ℚ := 0.142857142857
  let ns := vsplat4 n_
  let j := vsplat4 0
  let x_ : Vec4 := ⟨x0.x, x1.x, x2.x, x3.x⟩
  let y_ : Vec4 := ⟨x0.y, x1.y, x2.y, x3.y⟩
  let z_ : Vec4 := ⟨x0.z, x1.z, x2.z, x3.z⟩
  let t := vmax4 (vsub4 (vsplat4 0.6) ⟨dot3 x0 x0, dot3 x1 x1, dot3 x2 x2, dot3 x3 x3⟩)
    (vsplat4 0)
  let t2 := vmul4 t t
  42 * dot4 t2 ⟨dot3 x0 x0, dot3 x1 x1, dot3 x2 x2, dot3 x3 x3⟩

/-- The `snoise` primitive embedded in the `src/main.js` planet and moon
fragment shaders (the `return 70.0 * (...)` version with the `permute`
chains). The unused `vec4 x, y, z` bindings of the source are kept. -/
def snoise70 (v : Vec3) : ℚ :=
  let Cx : ℚ := 1 / 6
  let Cy : ℚ := 1 / 3
  let i0 := floor3 (vadd v (vsplat (dot3 v (vsplat Cy))))
  let x0 := vadd (vsub v i0) (vsplat (dot3 i0 (vsplat Cx)))
  let i1 : Vec3 :=
    if x0.x > x0.y then (if x0.x > x0.z then ⟨1, 0, 0⟩ else ⟨0, 0, 1⟩)
    else (if x0.y > x0.z then ⟨0, 1, 0⟩ else ⟨0, 0, 1⟩)
  let i2 := vsub ⟨1, 1, 1⟩ i1
  let x1 := vadd (vsub x0 i1) (vsplat (1 * Cx))
  let x2 := vadd (vsub x0 i2) (vsplat (2 * Cx))
  let x3 := vadd (vsub x0 (vsplat 1)) (vsplat (3 * Cx))
  let i := mod289v i0
  let i_x := permute (permute i.z + i.y)
  let i_xy := permute (i_x + i.x)
  let i_xz := permute (i_x + i.z)
  let i_yz := permute (permute i.x + i.y)
  let i_xyz := permute (i_yz + i.z)
  let i_zy := permute (permute i.x + i.z)
  let i_zyx := permute (i_zy + i.y)
  let xc : Vec4 := ⟨x0.x, x1.x, x2.x, x3.x⟩
  let yc : Vec4 := ⟨x0.y, x1.y, x2.y, x3.y⟩
  let zc : Vec4 := ⟨x0.z, x1.z, x2.z, x3.z⟩
  let ii : Vec4 := ⟨i_xy, i_xz, i_yz, i_xyz⟩
  let j : Vec4 := ⟨i_zyx, i_zy, i_x, i.y⟩
  let g0 : Vec4 := ⟨permute (ii.x + j.x), permute (ii.y + j.y),
    permute (ii.z + j.z), permute (ii.w + j.w)⟩
  let g1 : Vec4 := ⟨permute (g0.x + j.x), permute (g0.y + j.y),
    permute (g0.z + j.z), permute (g0.w + j.w)⟩
  let g2 : Vec4 := ⟨permute (g1.x + j.x), permute (g1.y + j.y),
    permute (g1.z + j.z), permute (g1.w + j.w)⟩
  let g3 : Vec4 := ⟨permute (g2.x + j.x), permute (g2.y + j.y),
    permute (g2.z + j.z), permute (g2.w + j.w)⟩
  let g : Vec4 := ⟨g0.x, g1.x, g2.x, g3.x⟩
  let m1 := vmax (vsub (vsplat 0.6) ⟨dot3 x0 x0, dot3 x1 x1, dot3 x2 x2⟩) (vsplat 0)
  let nx := m1.x * m1.x * dot4 g ⟨x0.x, x0.y, x0.z, 0⟩
  let m2 := vmax (vsub (vsplat 0.6) ⟨dot3 x1 x1, dot3 x2 x2, dot3 x3 x3⟩) (vsplat 0)
  let ny := m2.x * m2.x * dot4 g ⟨x1.x, x1.y, x1.z, 0⟩
  let nz := m2.y * m2.y * dot4 g ⟨x2.x, x2.y, x2.z, 0⟩
  let nw := m2.z * m2.z * dot4 g ⟨x3.x, x3.y, x3.z, 0⟩
  70 * (nx + ny + nz + nw)

/-! ## Instrumented (call-tracing) versions

The same loop and generator, additionally returning the list of coordinates
at which the underlying primitive is invoked (for the octave loop) and the
list of `(x, y, z, seed)` argument tuples at which `perlinNoise` is invoked
(for the generator). The value components are proved equal to the plain
versions, so the traces are faithful call counts of the source functions. -/

/-- The octave loop, also recording the coordinate triple passed to the
primitive at each iteration. -/
def octaveLoopT (noise3D : ℚ → ℚ → ℚ → ℚ) (sx sy sz : ℚ) :
    ℕ → OctState × List (ℚ × ℚ × ℚ) → OctState × List (ℚ × ℚ × ℚ)
  | 0, st => st
  | n + 1, (s, tr) =>
      octaveLoopT noise3D sx sy sz n
        (octaveStep noise3D sx sy sz s,
         tr ++ [(sx * s.frequency, sy * s.frequency, sz * s.frequency)])

/-- `perlinNoise`, also returning the list of primitive-call coordinates. -/
def perlinNoiseT (noise3D : ℚ → ℚ → ℚ → ℚ) (x y z seed : ℚ) :
    ℚ × List (ℚ × ℚ × ℚ) :=
  let scaledX := x * 0.1 + seed
  let scaledY := y * 0.1 + seed
  let scaledZ := z * 0.1 + seed
  let st := octaveLoopT noise3D scaledX scaledY scaledZ 4 (⟨0, 1, 1, 0⟩, [])
  ((st.1.total / st.1.maxVal + 1) / 2, st.2)

/-- `generatePlanetProperties`, also returning the list of `(x, y, z, seed)`
tuples at which `perlinNoise` is evaluated and the concatenated list of
primitive-call coordinates. -/
def generatePlanetPropertiesT (noise3D : ℚ → ℚ → ℚ → ℚ) (seed : ℚ) :
    PlanetProperties × List (ℚ × ℚ × ℚ × ℚ) × List (ℚ × ℚ × ℚ) :=
  let p1 := perlinNoiseT noise3D seed 10 20 seed
  let p2 := perlinNoiseT noise3D seed 30 40 seed
  let p3 := perlinNoiseT noise3D seed 50 60 seed
  let p4 := perlinNoiseT noise3D seed 70 80 seed
  let p5 := perlinNoiseT noise3D seed 90 100 seed
  let p6 := perlinNoiseT noise3D seed 110 120 seed
  let p7 := perlinNoiseT noise3D seed 130 140 seed
  let p8 := perlinNoiseT noise3D seed 150 160 seed
  let p9 := perlinNoiseT noise3D seed 170 180 seed
  let p10 := perlinNoiseT noise3D seed 190 200 seed
  let p11 := perlinNoiseT noise3D seed 210 220 seed
  let p12 := perlinNoiseT noise3D seed 230 240 seed
  let p13 := perlinNoiseT noise3D seed 250 260 seed
  ({ baseColor := ⟨p1.1, p2.1, p3.1⟩
     reflectance := p4.1 * 0.8
     emission := p5.1 * 0.2
     atmosphere := p6.1 * 0.5
     atmosphereColor := ⟨p7.1, p8.1, p9.1⟩
     seaColor := ⟨p10.1, p11.1, p12.1⟩
     landPct := p13.1 * 0.8
     seed := seed },
   [(seed, 10, 20, seed), (seed, 30, 40, seed), (seed, 50, 60, seed),
    (seed, 70, 80, seed), (seed, 90, 100, seed), (seed, 110, 120, seed),
    (seed, 130, 140, seed), (seed, 150, 160, seed), (seed, 170, 180, seed),
    (seed, 190, 200, seed), (seed, 210, 220, seed), (seed, 230, 240, seed),
    (seed, 250, 260, seed)],
   p1.2 ++ p2.2 ++ p3.2 ++ p4.2 ++ p5.2 ++ p6.2 ++ p7.2 ++ p8.2 ++ p9.2 ++
     p10.2 ++ p11.2 ++ p12.2 ++ p13.2)

/-! ## The returned JavaScript object as a string-keyed record

A JavaScript object is a map from property names to values; this view of the
`generatePlanetProperties` return statement captures the property names the
record actually exposes. -/

/-- A value stored in the returned object: a scalar or a `Color3`. -/
inductive JsValue where
  | num : ℚ → JsValue
  | color : Color3 → JsValue
  deriving DecidableEq

/-- The return object of `generatePlanetProperties` (`src/main.js` lines
126–135) as an association list from property names to values, in source
order with the source's shorthand property names. -/
def planetPropertiesObject (noise3D : ℚ → ℚ → ℚ → ℚ) (seed : ℚ) :
    List (String × JsValue) :=
  let p := generatePlanetProperties noise3D seed
  [("baseColor", JsValue.color p.baseColor),
   ("reflectance", JsValue.num p.reflectance),
   ("emission", JsValue.num p.emission),
   ("atmosphere", JsValue.num p.atmosphere),
   ("atmosphereColor", JsValue.color p.atmosphereColor),
   ("seaColor", JsValue.color p.seaColor),
   ("landPct", JsValue.num p.landPct),
   ("seed", JsValue.num p.seed)]

/-! ## Helper lemmas -/

/-- Four iterations of the counted loop, unrolled. -/
lemma octaveLoop_four (step : OctState → OctState) (s : OctState) :
    octaveLoop step 4 s = step (step (step (step s))) := rfl

/-- Closed form of the octave accumulation: the four primitive samples at
frequencies `1, 2, 4, 8`, weighted by amplitudes `1, 1/2, 1/4, 1/8`, divided
by the amplitude sum `15/8`, then remapped by `(· + 1) / 2`. -/
lemma perlinAccum_eq (n : ℚ → ℚ → ℚ → ℚ) (sx sy sz : ℚ) :
    perlinAccum n sx sy sz =
      ((n sx sy sz + n (sx * 2) (sy * 2) (sz * 2) * (1 / 2)
          + n (sx * 4) (sy * 4) (sz * 4) * (1 / 4)
          + n (sx * 8) (sy * 8) (sz * 8) * (1 / 8))
        / (15 / 8) + 1) / 2 := by
  show ((octaveLoop (octaveStep n sx sy sz) 4 ⟨0, 1, 1, 0⟩).total /
      (octaveLoop (octaveStep n sx sy sz) 4 ⟨0, 1, 1, 0⟩).maxVal + 1) / 2 = _
  rw [octaveLoop_four]
  simp only [octaveStep]
  norm_num

/-- Division by the amplitude sum `15/8`, as a multiplication. -/
lemma div_amp_sum (t : ℚ) : t / (15 / 8) = t * (8 / 15) := by ring

/-- If the primitive's values lie in `[-1, 1]`, the octave accumulation lies
in `[0, 1]`. -/
lemma perlinAccum_range (n : ℚ → ℚ → ℚ → ℚ)
    (hn : ∀ a b c : ℚ, -1 ≤ n a b c ∧ n a b c ≤ 1) (sx sy sz : ℚ) :
    0 ≤ perlinAccum n sx sy sz ∧ perlinAccum n sx sy sz ≤ 1 := by
  rw [perlinAccum_eq, div_amp_sum]
  obtain ⟨h1a, h1b⟩ := hn sx sy sz
  obtain ⟨h2a, h2b⟩ := hn (sx * 2) (sy * 2) (sz * 2)
  obtain ⟨h3a, h3b⟩ := hn (sx * 4) (sy * 4) (sz * 4)
  obtain ⟨h4a, h4b⟩ := hn (sx * 8) (sy * 8) (sz * 8)
  constructor <;> linarith

/-- If the primitive's values lie in `[-1, 1]`, `perlinNoise` lies in
`[0, 1]`. -/
lemma perlinNoise_range (n : ℚ → ℚ → ℚ → ℚ)
    (hn : ∀ a b c : ℚ, -1 ≤ n a b c ∧ n a b c ≤ 1) (x y z seed : ℚ) :
    0 ≤ perlinNoise n x y z seed ∧ perlinNoise n x y z seed ≤ 1 :=
  perlinAccum_range n hn (x * 0.1 + seed) (y * 0.1 + seed) (z * 0.1 + seed)

/-- The shader wrapper and the host wrapper are the same formula: over any
primitive they agree definitionally. -/
lemma glsl_host_eq (g : Vec3 → ℚ) (p : Vec3) (seed : ℚ) :
    glslPerlinNoise g p seed =
      perlinNoise (fun a b c => g ⟨a, b, c⟩) p.x p.y p.z seed := rfl

set_option maxHeartbeats 4000000 in
/-- The `src/main.js` shader primitive evaluates to `0` at the origin. -/
lemma snoise70_zero : snoise70 ⟨0, 0, 0⟩ = 0 := by
  norm_num [snoise70, floor3, vadd, vsub, vsplat, dot3, dot4, mod289v, mod289, permute,
    vmax, vmin, vstep, gstep, Int.floor_zero, max_def, min_def]

/-- The later variants' shader primitive evaluates to `6727/7200` at the
origin. -/
lemma snoise42_zero : snoise42 ⟨0, 0, 0⟩ = 6727 / 7200 := by
  norm_num [snoise42, floor3, vadd, vsub, vsplat, vsplat4, dot3, dot4, mod289v, mod289,
    permute, vmax, vmin, vmax4, vsub4, vmul4, vstep, gstep, Int.floor_zero, max_def, min_def]

/-- The `src/main.js` shader noise at the origin with seed `0`. -/
lemma glslPerlin70_zero : glslPerlinNoise snoise70 ⟨0, 0, 0⟩ 0 = 1 / 2 := by
  rw [glsl_host_eq]
  show perlinAccum _ ((0 : ℚ) * 0.1 + 0) ((0 : ℚ) * 0.1 + 0) ((0 : ℚ) * 0.1 + 0) = 1 / 2
  rw [perlinAccum_eq]
  norm_num [snoise70_zero]

/-- The later variants' shader noise at the origin with seed `0`. -/
lemma glslPerlin42_zero : glslPerlinNoise snoise42 ⟨0, 0, 0⟩ 0 = 13927 / 14400 := by
  rw [glsl_host_eq]
  show perlinAccum _ ((0 : ℚ) * 0.1 + 0) ((0 : ℚ) * 0.1 + 0) ((0 : ℚ) * 0.1 + 0)
    = 13927 / 14400
  rw [perlinAccum_eq]
  norm_num [snoise42_zero]

/-- A self-dot-product is nonnegative. -/
lemma dot3_self_nonneg (a : Vec3) : 0 ≤ dot3 a a := by
  simp only [dot3]
  have hx := mul_self_nonneg a.x
  have hy := mul_self_nonneg a.y
  have hz := mul_self_nonneg a.z
  linarith

/-- The instrumented octave loop records one primitive call per iteration. -/
lemma perlinNoiseT_len (n : ℚ → ℚ → ℚ → ℚ) (x y z s : ℚ) :
    (perlinNoiseT n x y z s).2.length = 4 := rfl

/-- The `snoise` of the later variants is nonnegative everywhere: it is `42`
times a dot product of a componentwise-squared vector with a vector of
self-dot-products. -/
lemma snoise42_nonneg (v : Vec3) : 0 ≤ snoise42 v := by
  have key : ∀ x0 x1 x2 x3 : Vec3,
      0 ≤ 42 * dot4
        (vmul4
          (vmax4 (vsub4 (vsplat4 0.6) ⟨dot3 x0 x0, dot3 x1 x1, dot3 x2 x2, dot3 x3 x3⟩)
            (vsplat4 0))
          (vmax4 (vsub4 (vsplat4 0.6) ⟨dot3 x0 x0, dot3 x1 x1, dot3 x2 x2, dot3 x3 x3⟩)
            (vsplat4 0)))
        ⟨dot3 x0 x0, dot3 x1 x1, dot3 x2 x2, dot3 x3 x3⟩ := by
    intro x0 x1 x2 x3
    simp only [vmax4, vsub4, vsplat4, vmul4, dot4]
    have m : ∀ u d : ℚ, 0 ≤ d → 0 ≤ max u 0 * max u 0 * d := fun u d hd =>
      mul_nonneg (mul_nonneg (le_max_right u 0) (le_max_right u 0)) hd
    have t0 := m (0.6 - dot3 x0 x0) _ (dot3_self_nonneg x0)
    have t1 := m (0.6 - dot3 x1 x1) _ (dot3_self_nonneg x1)
    have t2 := m (0.6 - dot3 x2 x2) _ (dot3_self_nonneg x2)
    have t3 := m (0.6 - dot3 x3 x3) _ (dot3_self_nonneg x3)
    linarith
  exact key _ _ _ _

/-! ## Claim theorems -/

/-- Claim C1: for every `(x, y, z, seed)`, `perlinNoise` computes exactly 4
octaves, octave `i` evaluating the primitive at
`((x*0.1+seed)*2^i, (y*0.1+seed)*2^i, (z*0.1+seed)*2^i)` weighted by
amplitude `0.5^i`, accumulating those amplitudes into a maximum amplitude,
and returning `(total/maxAmplitude + 1) / 2`. -/
theorem perlinNoise_four_octaves (n : ℚ → ℚ → ℚ → ℚ) (x y z seed : ℚ) :
    perlinNoise n x y z seed =
      ((∑ i in Finset.range 4,
          n ((x * 0.1 + seed) * 2 ^ i) ((y * 0.1 + seed) * 2 ^ i)
            ((z * 0.1 + seed) * 2 ^ i) * (0.5 : ℚ) ^ i)
        / (∑ i in Finset.range 4, (0.5 : ℚ) ^ i) + 1) / 2 := by
  show perlinAccum n _ _ _ = _
  rw [perlinAccum_eq]
  rw [Finset.sum_range_succ, Finset.sum_range_succ, Finset.sum_range_succ,
    Finset.sum_range_succ, Finset.sum_range_zero, Finset.sum_range_succ,
    Finset.sum_range_succ, Finset.sum_range_succ, Finset.sum_range_succ,
    Finset.sum_range_zero]
  norm_num

/-- Claim C2: whenever every value of the underlying noise primitive lies in
`[-1, 1]`, the result of `perlinNoise(x, y, z, seed)` lies in `[0, 1]`. -/
theorem perlinNoise_mem_unit (n : ℚ → ℚ → ℚ → ℚ) (x y z seed : ℚ)
    (hn : ∀ a b c : ℚ, -1 ≤ n a b c ∧ n a b c ≤ 1) :
    0 ≤ perlinNoise n x y z seed ∧ perlinNoise n x y z seed ≤ 1 :=
  perlinNoise_range n hn x y z seed

/-- Witness for C2: the hypothesis and conclusion hold at the constantly-zero
primitive and inputs `(1, 2, 3, 4)`. -/
theorem perlinNoise_mem_unit_witness :
    0 ≤ perlinNoise zeroNoise 1 2 3 4 ∧ perlinNoise zeroNoise 1 2 3 4 ≤ 1 :=
  perlinNoise_mem_unit zeroNoise 1 2 3 4
    (fun _ _ _ => ⟨by norm_num [zeroNoise], by norm_num [zeroNoise]⟩)

/-- Counterexample for C3: the two shader-embedded classification-path
implementations are not bit-for-bit the same function — the `src/main.js`
shader noise and the later variants' shader noise disagree at the concrete
input `(coordinate, seed) = ((0,0,0), 0)` — so the per-surface-point noise
cannot equal a single host-side function over one shared primitive in all
contexts. -/
theorem shader_noise_paths_differ :
    glslPerlinNoise snoise70 ⟨0, 0, 0⟩ 0 ≠ glslPerlinNoise snoise42 ⟨0, 0, 0⟩ 0 := by
  rw [glslPerlin70_zero, glslPerlin42_zero]
  norm_num

/-- Claim C3 (amended): the shader-embedded `perlinNoise` wrapper and the
host-side `perlinNoise` wrapper are the same closed-form 4-octave formula:
over any shared primitive they agree at every `(coordinate, seed)`. The
primitives themselves differ between contexts (see the counterexample), so
bit-for-bit equivalence of the full paths does not hold. -/
theorem glsl_wrapper_refines_host (g : Vec3 → ℚ) (p : Vec3) (seed : ℚ) :
    glslPerlinNoise g p seed =
      perlinNoise (fun a b c => g ⟨a, b, c⟩) p.x p.y p.z seed :=
  glsl_host_eq g p seed

/-- Claim C4: `generatePlanetProperties(seed)` samples
`perlinNoise(seed, off_x, off_y, seed)` at exactly the listed offset pairs
and applies exactly the listed multipliers: colors unscaled,
reflectance `×0.8`, emission `×0.2`, atmosphere thickness `×0.5`,
land fraction `×0.8`. -/
theorem generatePlanetProperties_offsets (n : ℚ → ℚ → ℚ → ℚ) (seed : ℚ) :
    generatePlanetProperties n seed =
      { baseColor := ⟨perlinNoise n seed 10 20 seed,
          perlinNoise n seed 30 40 seed,
          perlinNoise n seed 50 60 seed⟩
        reflectance := perlinNoise n seed 70 80 seed * 0.8
        emission := perlinNoise n seed 90 100 seed * 0.2
        atmosphere := perlinNoise n seed 110 120 seed * 0.5
        atmosphereColor := ⟨perlinNoise n seed 130 140 seed,
          perlinNoise n seed 150 160 seed,
          perlinNoise n seed 170 180 seed⟩
        seaColor := ⟨perlinNoise n seed 190 200 seed,
          perlinNoise n seed 210 220 seed,
          perlinNoise n seed 230 240 seed⟩
        landPct := perlinNoise n seed 250 260 seed * 0.8
        seed := seed } := rfl

/-- Claim C5: under the primitive's `[-1, 1]` range hypothesis, every seed
yields `reflectance ∈ [0, 0.8]`, `emission ∈ [0, 0.2]`, atmosphere thickness
`∈ [0, 0.5]`, land fraction `∈ [0, 0.8]`, and every channel of the three
colors in `[0, 1]`. -/
theorem generatePlanetProperties_ranges (n : ℚ → ℚ → ℚ → ℚ) (seed : ℚ)
    (hn : ∀ a b c : ℚ, -1 ≤ n a b c ∧ n a b c ≤ 1) :
    (0 ≤ (generatePlanetProperties n seed).reflectance
        ∧ (generatePlanetProperties n seed).reflectance ≤ 0.8)
      ∧ (0 ≤ (generatePlanetProperties n seed).emission
        ∧ (generatePlanetProperties n seed).emission ≤ 0.2)
      ∧ (0 ≤ (generatePlanetProperties n seed).atmosphere
        ∧ (generatePlanetProperties n seed).atmosphere ≤ 0.5)
      ∧ (0 ≤ (generatePlanetProperties n seed).landPct
        ∧ (generatePlanetProperties n seed).landPct ≤ 0.8)
      ∧ (0 ≤ (generatePlanetProperties n seed).baseColor.r
        ∧ (generatePlanetProperties n seed).baseColor.r ≤ 1)
      ∧ (0 ≤ (generatePlanetProperties n seed).baseColor.g
        ∧ (generatePlanetProperties n seed).baseColor.g ≤ 1)
      ∧ (0 ≤ (generatePlanetProperties n seed).baseColor.b
        ∧ (generatePlanetProperties n seed).baseColor.b ≤ 1)
      ∧ (0 ≤ (generatePlanetProperties n seed).atmosphereColor.r
        ∧ (generatePlanetProperties n seed).atmosphereColor.r ≤ 1)
      ∧ (0 ≤ (generatePlanetProperties n seed).atmosphereColor.g
        ∧ (generatePlanetProperties n seed).atmosphereColor.g ≤ 1)
      ∧ (0 ≤ (generatePlanetProperties n seed).atmosphereColor.b
        ∧ (generatePlanetProperties n seed).atmosphereColor.b ≤ 1)
      ∧ (0 ≤ (generatePlanetProperties n seed).seaColor.r
        ∧ (generatePlanetProperties n seed).seaColor.r ≤ 1)
      ∧ (0 ≤ (generatePlanetProperties n seed).seaColor.g
        ∧ (generatePlanetProperties n seed).seaColor.g ≤ 1)
      ∧ (0 ≤ (generatePlanetProperties n seed).seaColor.b
        ∧ (generatePlanetProperties n seed).seaColor.b ≤ 1) := by
  have h1 := perlinNoise_range n hn seed 10 20 seed
  have h2 := perlinNoise_range n hn seed 30 40 seed
  have h3 := perlinNoise_range n hn seed 50 60 seed
  have h4 := perlinNoise_range n hn seed 70 80 seed
  have h5 := perlinNoise_range n hn seed 90 100 seed
  have h6 := perlinNoise_range n hn seed 110 120 seed
  have h7 := perlinNoise_range n hn seed 130 140 seed
  have h8 := perlinNoise_range n hn seed 150 160 seed
  have h9 := perlinNoise_range n hn seed 170 180 seed
  have h10 := perlinNoise_range n hn seed 190 200 seed
  have h11 := perlinNoise_range n hn seed 210 220 seed
  have h12 := perlinNoise_range n hn seed 230 240 seed
  have h13 := perlinNoise_range n hn seed 250 260 seed
  refine ⟨⟨?_, ?_⟩, ⟨?_, ?_⟩, ⟨?_, ?_⟩, ⟨?_, ?_⟩, ⟨?_, ?_⟩, ⟨?_, ?_⟩, ⟨?_, ?_⟩,
    ⟨?_, ?_⟩, ⟨?_, ?_⟩, ⟨?_, ?_⟩, ⟨?_, ?_⟩, ⟨?_, ?_⟩, ⟨?_, ?_⟩⟩
  all_goals simp only [generatePlanetProperties]
  all_goals linarith

/-- Witness for C5: the ranges hold at the constantly-zero primitive and the
acceptance-scenario seed `123`. -/
theorem generatePlanetProperties_ranges_witness :
    (0 ≤ (generatePlanetProperties zeroNoise 123).reflectance
        ∧ (generatePlanetProperties zeroNoise 123).reflectance ≤ 0.8)
      ∧ (0 ≤ (generatePlanetProperties zeroNoise 123).emission
        ∧ (generatePlanetProperties zeroNoise 123).emission ≤ 0.2)
      ∧ (0 ≤ (generatePlanetProperties zeroNoise 123).atmosphere
        ∧ (generatePlanetProperties zeroNoise 123).atmosphere ≤ 0.5)
      ∧ (0 ≤ (generatePlanetProperties zeroNoise 123).landPct
        ∧ (generatePlanetProperties zeroNoise 123).landPct ≤ 0.8)
      ∧ (0 ≤ (generatePlanetProperties zeroNoise 123).baseColor.r
        ∧ (generatePlanetProperties zeroNoise 123).baseColor.r ≤ 1)
      ∧ (0 ≤ (generatePlanetProperties zeroNoise 123).baseColor.g
        ∧ (generatePlanetProperties zeroNoise 123).baseColor.g ≤ 1)
      ∧ (0 ≤ (generatePlanetProperties zeroNoise 123).baseColor.b
        ∧ (generatePlanetProperties zeroNoise 123).baseColor.b ≤ 1)
      ∧ (0 ≤ (generatePlanetProperties zeroNoise 123).atmosphereColor.r
        ∧ (generatePlanetProperties zeroNoise 123).atmosphereColor.r ≤ 1)
      ∧ (0 ≤ (generatePlanetProperties zeroNoise 123).atmosphereColor.g
        ∧ (generatePlanetProperties zeroNoise 123).atmosphereColor.g ≤ 1)
      ∧ (0 ≤ (generatePlanetProperties zeroNoise 123).atmosphereColor.b
        ∧ (generatePlanetProperties zeroNoise 123).atmosphereColor.b ≤ 1)
      ∧ (0 ≤ (generatePlanetProperties zeroNoise 123).seaColor.r
        ∧ (generatePlanetProperties zeroNoise 123).seaColor.r ≤ 1)
      ∧ (0 ≤ (generatePlanetProperties zeroNoise 123).seaColor.g
        ∧ (generatePlanetProperties zeroNoise 123).seaColor.g ≤ 1)
      ∧ (0 ≤ (generatePlanetProperties zeroNoise 123).seaColor.b
        ∧ (generatePlanetProperties zeroNoise 123).seaColor.b ≤ 1) :=
  generatePlanetProperties_ranges zeroNoise 123
    (fun _ _ _ => ⟨by norm_num [zeroNoise], by norm_num [zeroNoise]⟩)

/-- Claim C6: the `seed` field of the returned record is exactly the input
seed. -/
theorem generatePlanetProperties_seed_echo (n : ℚ → ℚ → ℚ → ℚ) (seed : ℚ) :
    (generatePlanetProperties n seed).seed = seed := rfl

/-- Counterexample for C7: at the concrete input `seed = 0` (any primitive),
one call to `generatePlanetProperties` does not perform nine `perlinNoise`
evaluations with thirty-six primitive evaluations — the instrumented call
traces have lengths 13 and 52. -/
theorem generate_call_count_not_nine :
    ¬ ((generatePlanetPropertiesT zeroNoise 0).2.1.length = 9
        ∧ (generatePlanetPropertiesT zeroNoise 0).2.2.length = 36) := by
  intro h
  obtain ⟨h9, _⟩ := h
  rw [show (generatePlanetPropertiesT zeroNoise 0).2.1.length = 13 from by
    simp [generatePlanetPropertiesT]] at h9
  exact absurd h9 (by norm_num)

/-- Claim C7 (amended): one call to `generatePlanetProperties` performs
exactly thirteen `perlinNoise` evaluations at thirteen fixed, pairwise
distinct `(x, y, z, seed)` argument tuples, hence exactly `13 × 4 = 52`
evaluations of the underlying noise primitive per body; the instrumented
generator computes the same record as the plain one. -/
theorem generate_call_counts (n : ℚ → ℚ → ℚ → ℚ) (seed : ℚ) :
    (generatePlanetPropertiesT n seed).2.1.length = 13
      ∧ (generatePlanetPropertiesT n seed).2.2.length = 52
      ∧ (generatePlanetPropertiesT n seed).2.1.Nodup
      ∧ (generatePlanetPropertiesT n seed).1 = generatePlanetProperties n seed := by
  refine ⟨by simp [generatePlanetPropertiesT], ?_, ?_, rfl⟩
  · simp only [generatePlanetPropertiesT, List.length_append, perlinNoiseT_len]
  · have hmap : ((generatePlanetPropertiesT n seed).2.1.map
        (fun t : ℚ × ℚ × ℚ × ℚ => (t.2.1, t.2.2.1))).Nodup := by
      show ([((10:ℚ), (20:ℚ)), (30, 40), (50, 60), (70, 80), (90, 100), (110, 120),
        (130, 140), (150, 160), (170, 180), (190, 200), (210, 220), (230, 240),
        (250, 260)]).Nodup
      norm_num [List.nodup_cons]
    exact hmap.of_map

/-- Counterexample for C8: at the concrete input `seed = 0` (constantly-zero
primitive), the returned object exposes no property named
`atmosphereThickness` and none named `landFraction`. -/
theorem properties_fields_not_spec_named :
    (planetPropertiesObject zeroNoise 0).lookup "atmosphereThickness" = none
      ∧ (planetPropertiesObject zeroNoise 0).lookup "landFraction" = none :=
  ⟨rfl, rfl⟩

/-- Claim C8 (amended): the returned record exposes the atmosphere-thickness
scalar under the property name `atmosphere` (in `[0, 0.5]` under the
primitive's `[-1, 1]` hypothesis) and the land-fraction scalar under the
property name `landPct` (in `[0, 0.8]`), not under the spec's names
`atmosphereThickness` and `landFraction`. -/
theorem properties_object_fields (n : ℚ → ℚ → ℚ → ℚ) (seed : ℚ)
    (hn : ∀ a b c : ℚ, -1 ≤ n a b c ∧ n a b c ≤ 1) :
    (planetPropertiesObject n seed).lookup "atmosphere"
        = some (JsValue.num ((generatePlanetProperties n seed).atmosphere))
      ∧ (0 ≤ (generatePlanetProperties n seed).atmosphere
        ∧ (generatePlanetProperties n seed).atmosphere ≤ 0.5)
      ∧ (planetPropertiesObject n seed).lookup "landPct"
        = some (JsValue.num ((generatePlanetProperties n seed).landPct))
      ∧ (0 ≤ (generatePlanetProperties n seed).landPct
        ∧ (generatePlanetProperties n seed).landPct ≤ 0.8) := by
  have h6 := perlinNoise_range n hn seed 110 120 seed
  have h13 := perlinNoise_range n hn seed 250 260 seed
  refine ⟨rfl, ⟨?_, ?_⟩, rfl, ⟨?_, ?_⟩⟩ <;>
    · simp only [generatePlanetProperties]
      linarith

/-- Witness for C8 (amended): the field names and ranges at the
constantly-zero primitive and seed `0`. -/
theorem properties_object_fields_witness :
    (planetPropertiesObject zeroNoise 0).lookup "atmosphere"
        = some (JsValue.num ((generatePlanetProperties zeroNoise 0).atmosphere))
      ∧ (0 ≤ (generatePlanetProperties zeroNoise 0).atmosphere
        ∧ (generatePlanetProperties zeroNoise 0).atmosphere ≤ 0.5)
      ∧ (planetPropertiesObject zeroNoise 0).lookup "landPct"
        = some (JsValue.num ((generatePlanetProperties zeroNoise 0).landPct))
      ∧ (0 ≤ (generatePlanetProperties zeroNoise 0).landPct
        ∧ (generatePlanetProperties zeroNoise 0).landPct ≤ 0.8) :=
  properties_object_fields zeroNoise 0
    (fun _ _ _ => ⟨by norm_num [zeroNoise], by norm_num [zeroNoise]⟩)

/-- Claim C9: `perlinNoise` depends on its inputs only through
`x*0.1 + seed, y*0.1 + seed, z*0.1 + seed`, so the seed is interchangeable
with a uniform diagonal coordinate translation:
`perlinNoise(x, y, z, seed) = perlinNoise(x + 10d, y + 10d, z + 10d, seed − d)`
for every shift `d`, and in particular equals
`perlinNoise(x + 10·seed, y + 10·seed, z + 10·seed, 0)`. -/
theorem perlinNoise_seed_shift (n : ℚ → ℚ → ℚ → ℚ) (x y z seed : ℚ) :
    (∀ d : ℚ, perlinNoise n (x + 10 * d) (y + 10 * d) (z + 10 * d) (seed - d)
        = perlinNoise n x y z seed)
      ∧ perlinNoise n x y z seed
        = perlinNoise n (x + 10 * seed) (y + 10 * seed) (z + 10 * seed) 0 := by
  constructor
  · intro d
    show perlinAccum n ((x + 10 * d) * 0.1 + (seed - d)) ((y + 10 * d) * 0.1 + (seed - d))
        ((z + 10 * d) * 0.1 + (seed - d))
      = perlinAccum n (x * 0.1 + seed) (y * 0.1 + seed) (z * 0.1 + seed)
    rw [show (x + 10 * d) * 0.1 + (seed - d) = x * 0.1 + seed by ring,
        show (y + 10 * d) * 0.1 + (seed - d) = y * 0.1 + seed by ring,
        show (z + 10 * d) * 0.1 + (seed - d) = z * 0.1 + seed by ring]
  · show perlinAccum n (x * 0.1 + seed) (y * 0.1 + seed) (z * 0.1 + seed)
      = perlinAccum n ((x + 10 * seed) * 0.1 + 0) ((y + 10 * seed) * 0.1 + 0)
        ((z + 10 * seed) * 0.1 + 0)
    rw [show (x + 10 * seed) * 0.1 + 0 = x * 0.1 + seed by ring,
        show (y + 10 * seed) * 0.1 + 0 = y * 0.1 + seed by ring,
        show (z + 10 * seed) * 0.1 + 0 = z * 0.1 + seed by ring]

/-- Claim C10: the later variants' shader `snoise` returns `42` times a dot
product of componentwise-nonnegative vectors, so it is nonnegative at every
input; consequently the shader-side `perlinNoise` over it never goes below
`0.5` — that classification-path noise never reaches the lower half of the
nominal `[0, 1]` range. -/
theorem snoise42_perlin_lower_half :
    (∀ v : Vec3, 0 ≤ snoise42 v)
      ∧ ∀ (p : Vec3) (seed : ℚ), 1 / 2 ≤ glslPerlinNoise snoise42 p seed := by
  refine ⟨snoise42_nonneg, fun p seed => ?_⟩
  rw [glsl_host_eq]
  show 1 / 2 ≤ perlinAccum _ (p.x * 0.1 + seed) (p.y * 0.1 + seed) (p.z * 0.1 + seed)
  simp only [perlinAccum_eq, div_amp_sum]
  have g1 := snoise42_nonneg ⟨p.x * 0.1 + seed, p.y * 0.1 + seed, p.z * 0.1 + seed⟩
  have g2 := snoise42_nonneg
    ⟨(p.x * 0.1 + seed) * 2, (p.y * 0.1 + seed) * 2, (p.z * 0.1 + seed) * 2⟩
  have g3 := snoise42_nonneg
    ⟨(p.x * 0.1 + seed) * 4, (p.y * 0.1 + seed) * 4, (p.z * 0.1 + seed) * 4⟩
  have g4 := snoise42_nonneg
    ⟨(p.x * 0.1 + seed) * 8, (p.y * 0.1 + seed) * 8, (p.z * 0.1 + seed) * 8⟩
  linarith

end GalaxySim
